import Mathlib

/-!
Shallow embedding of the St-Moritz repository (Aoyama et al. 2020 fits):
`src/python/RpTeff_from_Mdot_Mp_fit.py` and the legacy duplicate
`src/Rp_from_Mdot_Mp_Popsynthfit.py`.

Python floats are modelled by real numbers; `np.log10` by `Real.logb 10`,
`np.exp` by `Real.exp`, `np.sqrt` by `Real.sqrt`, the float `**` operator by
`Real.rpow`, `np.fmax`/`np.fmin` by `max`/`min`, and `np.pi` by `Real.pi`.
The one `raise Exception(...)` in `Rp_from_Mdot_Mp` is modelled by returning
`Except.error` with the formatted message; the callers propagate the error
through `Except.bind`, matching Python exception propagation.
-/

namespace StMoritz

open Real

/-- Body of the `Pop == 'warm'` branch of `Rp_from_Mdot_Mp`
(`src/python/RpTeff_from_Mdot_Mp_fit.py`, lines 70-73), as a function of the
already-computed `lm2 = log10(Mdot/1e-2)` and of `Mp`. -/
noncomputable def Rp_warm_expr (lm2 Mp : ℝ) : ℝ :=
  0.411 - 0.244*lm2 + 3.45*Real.exp (0.762*lm2)
    + (-0.489 - 0.0961*lm2 + 0.652*Real.exp (0.353*lm2))*(Mp - 1.0)
    + (-0.228 - 0.00106*lm2 + 0.226*Real.exp (0.000220*lm2))*(Mp - 1.0)^(2:ℝ)

/-- Body of the `Pop == 'cold'` branch of `Rp_from_Mdot_Mp`
(`src/python/RpTeff_from_Mdot_Mp_fit.py`, lines 74-77). -/
noncomputable def Rp_cold_expr (lm2 Mp : ℝ) : ℝ :=
  1.53 + 0.111*lm2 + 1.06*Real.exp (0.906*lm2)
    + (-0.195 - 0.0307*lm2 + 0.0977*Real.exp (0.000695*lm2))*(Mp - 1.0)
    + (-0.250 + 0.000276*lm2 + 0.254*Real.exp (0.000214*lm2))*(Mp - 1.0)^(2:ℝ)

/-- `Rp_from_Mdot_Mp(Mdot, Mp, Pop)`: radius (in RJ) of an accreting planet.
Raises (returns `Except.error`) when `Pop` is neither `"warm"` nor `"cold"`,
with the message produced by
`'Pop should be "warm" or "cold" but given "{}"'.format(Pop)`. -/
noncomputable def Rp_from_Mdot_Mp (Mdot Mp : ℝ) (Pop : String) : Except String ℝ :=
  let lm2 := Real.logb 10 (Mdot/1e-2)
  if Pop = "warm" then
    Except.ok (Rp_warm_expr lm2 Mp)
  else if Pop = "cold" then
    Except.ok (Rp_cold_expr lm2 Mp)
  else
    Except.error ("Pop should be \"warm\" or \"cold\" but given \"" ++ Pop ++ "\"")

/-- `v0simple(Mp, Rp)`: free-fall velocity for free-fall from infinity,
`-1 * sqrt(2*6.67e-8*Mp*1.898e30/(Rp*7.15e9))`. -/
noncomputable def v0simple (Mp Rp : ℝ) : ℝ :=
  -1 * Real.sqrt (2*6.67e-8*Mp*1.898e30/(Rp*7.15e9))

/-- `v_MdotMp(Mdot, Mp, Pop)`: free-fall velocity at the fitted radius. -/
noncomputable def v_MdotMp (Mdot Mp : ℝ) (Pop : String) : Except String ℝ :=
  (Rp_from_Mdot_Mp Mdot Mp Pop).bind fun Rp =>
  Except.ok (v0simple Mp Rp)

/-- `n_MdotMp(Mdot, Mp, Pop, ffill)`: preshock number density, via
`Mdot*1.893e20/(4*pi*(Rp*7.15e9)**2.*ffill * -v * 1.673e-24/X_H_MASSFRAC)`
with `X_H_MASSFRAC = 0.738`. -/
noncomputable def n_MdotMp (Mdot Mp : ℝ) (Pop : String) (ffill : ℝ) : Except String ℝ :=
  let X_H_MASSFRAC : ℝ := 0.738
  (Rp_from_Mdot_Mp Mdot Mp Pop).bind fun Rp =>
  (v_MdotMp Mdot Mp Pop).bind fun v =>
  Except.ok (Mdot*1.893e20/(4*Real.pi*(Rp*7.15e9)^(2:ℝ)*ffill * -v * 1.673e-24/X_H_MASSFRAC))

/-- `Tacc_MdotMp(Mdot, Mp, Pop, ffill)`: the accretion temperature
`(6.67e-8*Mp*1.898e30*Mdot*1.893e20/(ffill*4*pi*(Rp*7.15e9)**3.*5.67e-5))**0.25`. -/
noncomputable def Tacc_MdotMp (Mdot Mp : ℝ) (Pop : String) (ffill : ℝ) : Except String ℝ :=
  (Rp_from_Mdot_Mp Mdot Mp Pop).bind fun Rp =>
  Except.ok ((6.67e-8*Mp*1.898e30*Mdot*1.893e20/
    (ffill * 4*Real.pi*(Rp*7.15e9)^(3:ℝ) * 5.67e-5))^(0.25:ℝ))

/-- `fdown1_Popsynthfit(lgn0, v0)`: raw polynomial fit of the
downward-travelling fraction of the flux. -/
noncomputable def fdown1_Popsynthfit (lgn0 v0 : ℝ) : ℝ :=
  0.703752 - 0.0967987*(lgn0 - 12) - 0.0254579*|lgn0 - 12|^(2:ℝ)
    + (-0.00527886 - 0.00146833*(lgn0 - 12) - 0.000321504*|lgn0 - 12|^(2:ℝ))*(v0 - 100)
    - 9.91492e-6*|v0 - 100|^(2:ℝ)

/-- `fdown_Popsynthfit(lgn0, v0)`: the raw fit limited to [0,1],
`np.fmax(np.fmin(fdown1_Popsynthfit(lgn0, v0), 1), 0)`. -/
noncomputable def fdown_Popsynthfit (lgn0 v0 : ℝ) : ℝ :=
  max (min (fdown1_Popsynthfit lgn0 v0) 1) 0

/-- `Teff_from_Mdot_Mp(Mdot, Mp, Tint, Pop, ffill)`: effective temperature of
the accreting region,
`(Tint**4. + fdown_Popsynthfit(log10(n), v/(-1e5)) * Tacc**4.)**0.25`. -/
noncomputable def Teff_from_Mdot_Mp (Mdot Mp Tint : ℝ) (Pop : String) (ffill : ℝ) :
    Except String ℝ :=
  (n_MdotMp Mdot Mp Pop ffill).bind fun n =>
  (v_MdotMp Mdot Mp Pop).bind fun v =>
  (Tacc_MdotMp Mdot Mp Pop ffill).bind fun Tacc =>
  Except.ok ((Tint^(4:ℝ)
    + fdown_Popsynthfit (Real.logb 10 n) (v / -1e5) * Tacc^(4:ℝ))^(0.25:ℝ))

/-- Body of the `Pop == 'warm'` branch of the legacy
`Rp_from_Mdot_Mp_Popsynthfit` (`src/Rp_from_Mdot_Mp_Popsynthfit.py`,
lines 35-38), transcribed independently of the core file. -/
noncomputable def Popsynthfit_warm_expr (lm2 Mp : ℝ) : ℝ :=
  0.411 - 0.244*lm2 + 3.45*Real.exp (0.762*lm2)
    + (-0.489 - 0.0961*lm2 + 0.652*Real.exp (0.353*lm2))*(Mp - 1.0)
    + (-0.228 - 0.00106*lm2 + 0.226*Real.exp (0.000220*lm2))*(Mp - 1.0)^(2:ℝ)

/-- Body of the `else` branch of the legacy `Rp_from_Mdot_Mp_Popsynthfit`
(`src/Rp_from_Mdot_Mp_Popsynthfit.py`, lines 39-42). -/
noncomputable def Popsynthfit_cold_expr (lm2 Mp : ℝ) : ℝ :=
  1.53 + 0.111*lm2 + 1.06*Real.exp (0.906*lm2)
    + (-0.195 - 0.0307*lm2 + 0.0977*Real.exp (0.000695*lm2))*(Mp - 1.0)
    + (-0.250 + 0.000276*lm2 + 0.254*Real.exp (0.000214*lm2))*(Mp - 1.0)^(2:ℝ)

/-- Legacy `Rp_from_Mdot_Mp_Popsynthfit(Mdot, Mp, Pop='warm')`: an
`if Pop == 'warm' ... else ...` with no error branch, so the result type is a
plain real number and any `Pop` other than `"warm"` takes the cold branch. -/
noncomputable def Rp_from_Mdot_Mp_Popsynthfit (Mdot Mp : ℝ) (Pop : String := "warm") : ℝ :=
  let lm2 := Real.logb 10 (Mdot/1e-2)
  if Pop = "warm" then
    Popsynthfit_warm_expr lm2 Mp
  else
    Popsynthfit_cold_expr lm2 Mp

/-! Helper lemmas shared by the claim theorems. -/

/-- Reduction of `Rp_from_Mdot_Mp` on the warm branch. -/
theorem Rp_from_Mdot_Mp_warm (Mdot Mp : ℝ) :
    Rp_from_Mdot_Mp Mdot Mp "warm"
      = Except.ok (Rp_warm_expr (Real.logb 10 (Mdot/1e-2)) Mp) := rfl

/-- Reduction of `Rp_from_Mdot_Mp` on the cold branch. -/
theorem Rp_from_Mdot_Mp_cold (Mdot Mp : ℝ) :
    Rp_from_Mdot_Mp Mdot Mp "cold"
      = Except.ok (Rp_cold_expr (Real.logb 10 (Mdot/1e-2)) Mp) := rfl

/-- Reduction of `Rp_from_Mdot_Mp` on the error branch. -/
theorem Rp_from_Mdot_Mp_invalid (Mdot Mp : ℝ) (Pop : String)
    (h1 : Pop ≠ "warm") (h2 : Pop ≠ "cold") :
    Rp_from_Mdot_Mp Mdot Mp Pop
      = Except.error ("Pop should be \"warm\" or \"cold\" but given \"" ++ Pop ++ "\"") := by
  unfold Rp_from_Mdot_Mp
  rw [if_neg h1, if_neg h2]

/-- The clamped downward fraction is nonnegative. -/
theorem fdown_Popsynthfit_nonneg (lgn0 v0 : ℝ) : 0 ≤ fdown_Popsynthfit lgn0 v0 :=
  le_max_right _ _

/-- The clamped downward fraction is at most one. -/
theorem fdown_Popsynthfit_le_one (lgn0 v0 : ℝ) : fdown_Popsynthfit lgn0 v0 ≤ 1 :=
  max_le (min_le_right _ _) zero_le_one

/-- A real raised to the power 0.25 (as `Real.rpow`) is nonnegative, whatever
the sign of the base. -/
theorem rpow_quarter_nonneg (x : ℝ) : 0 ≤ x ^ (0.25:ℝ) := by
  rcases lt_trichotomy x 0 with h | h | h
  · rw [Real.rpow_def_of_neg h]
    apply mul_nonneg (Real.exp_pos _).le
    rw [show (0.25:ℝ) * Real.pi = Real.pi/4 by ring, Real.cos_pi_div_four]
    positivity
  · rw [h, Real.zero_rpow (by norm_num)]
  · exact (Real.rpow_pos_of_pos h _).le

/-!  Claim theorems. -/

/-- C1: for every `Mdot`, `Mp` and every `Pop` outside {warm, cold},
`Rp_from_Mdot_Mp` fails with the InvalidArgument message naming the offending
`Pop` value, and returns no numeric value. -/
theorem Rp_invalid_pop_error (Mdot Mp : ℝ) (Pop : String)
    (h1 : Pop ≠ "warm") (h2 : Pop ≠ "cold") :
    Rp_from_Mdot_Mp Mdot Mp Pop
        = Except.error ("Pop should be \"warm\" or \"cold\" but given \"" ++ Pop ++ "\"")
      ∧ ∀ y : ℝ, Rp_from_Mdot_Mp Mdot Mp Pop ≠ Except.ok y := by
  refine ⟨Rp_from_Mdot_Mp_invalid Mdot Mp Pop h1 h2, fun y hy => ?_⟩
  rw [Rp_from_Mdot_Mp_invalid Mdot Mp Pop h1 h2] at hy
  exact Except.noConfusion hy

/-- Witness for C1 at `Pop = "hot"`. -/
theorem Rp_invalid_pop_error_witness :
    Rp_from_Mdot_Mp 1 1 "hot"
        = Except.error ("Pop should be \"warm\" or \"cold\" but given \"" ++ "hot" ++ "\"")
      ∧ ∀ y : ℝ, Rp_from_Mdot_Mp 1 1 "hot" ≠ Except.ok y :=
  Rp_invalid_pop_error 1 1 "hot" (by decide) (by decide)

/-- C2: for every input pair, the clamped downward flux fraction
`fdown_Popsynthfit` lies in [0, 1]. -/
theorem fdown_mem_unit_interval (lgn0 v0 : ℝ) :
    0 ≤ fdown_Popsynthfit lgn0 v0 ∧ fdown_Popsynthfit lgn0 v0 ≤ 1 :=
  ⟨fdown_Popsynthfit_nonneg lgn0 v0, fdown_Popsynthfit_le_one lgn0 v0⟩

/-- C3: at `Mdot = 1e-2` and `Mp = 1.0` the radius fit returns exactly the
constant term: 3.861 RJ for the warm population and 2.59 RJ for the cold one. -/
theorem Rp_at_reference_point :
    Rp_from_Mdot_Mp 1e-2 1.0 "warm" = Except.ok 3.861
      ∧ Rp_from_Mdot_Mp 1e-2 1.0 "cold" = Except.ok 2.59 := by
  have hl : Real.logb 10 ((1e-2:ℝ)/1e-2) = 0 := by
    rw [show ((1e-2:ℝ)/1e-2) = 1 by norm_num, Real.logb_one]
  constructor
  · rw [Rp_from_Mdot_Mp_warm, hl, Rp_warm_expr]
    norm_num [Real.exp_zero, Real.zero_rpow]
  · rw [Rp_from_Mdot_Mp_cold, hl, Rp_cold_expr]
    norm_num [Real.exp_zero, Real.zero_rpow]

/-- C7: for positive `Mp` and `Rp`, the free-fall velocity `v0simple` is
nonpositive and equals `-sqrt(2*G*Mp_grams/Rp_cm)` with `G = 6.67e-8`,
`Mp_grams = Mp*1.898e30` and `Rp_cm = Rp*7.15e9`. -/
theorem v0simple_eq_neg_sqrt (Mp Rp : ℝ) (hMp : 0 < Mp) (hRp : 0 < Rp) :
    v0simple Mp Rp ≤ 0
      ∧ v0simple Mp Rp = -Real.sqrt (2*6.67e-8*(Mp*1.898e30)/(Rp*7.15e9)) := by
  constructor
  · have h := Real.sqrt_nonneg (2*6.67e-8*Mp*1.898e30/(Rp*7.15e9))
    unfold v0simple
    nlinarith
  · unfold v0simple
    rw [neg_one_mul]
    congr 1
    ring_nf

/-- Witness for C7 at `Mp = 1`, `Rp = 1`. -/
theorem v0simple_eq_neg_sqrt_witness :
    v0simple 1 1 ≤ 0
      ∧ v0simple 1 1 = -Real.sqrt (2*6.67e-8*((1:ℝ)*1.898e30)/((1:ℝ)*7.15e9)) :=
  v0simple_eq_neg_sqrt 1 1 (by norm_num) (by norm_num)

/-- C8: for `Mdot > 0` and any `Pop` other than `"warm"` (e.g. an invalid value
such as `"hot"`), the legacy `Rp_from_Mdot_Mp_Popsynthfit` silently returns the
cold-population result instead of failing, and its `Pop` parameter defaults to
`"warm"` when omitted.  (It can raise no error: its result type is ℝ, not
`Except`.) -/
theorem Popsynthfit_silent_cold (Mdot Mp : ℝ) (Pop : String)
    (hM : 0 < Mdot) (h : Pop ≠ "warm") :
    Rp_from_Mdot_Mp_Popsynthfit Mdot Mp Pop = Rp_from_Mdot_Mp_Popsynthfit Mdot Mp "cold"
      ∧ Rp_from_Mdot_Mp_Popsynthfit Mdot Mp = Rp_from_Mdot_Mp_Popsynthfit Mdot Mp "warm" := by
  constructor
  · unfold Rp_from_Mdot_Mp_Popsynthfit
    rw [if_neg h, if_neg (by decide : ¬("cold" = "warm"))]
  · rfl

/-- Witness for C8 at `Pop = "hot"`. -/
theorem Popsynthfit_silent_cold_witness :
    Rp_from_Mdot_Mp_Popsynthfit 1 2 "hot" = Rp_from_Mdot_Mp_Popsynthfit 1 2 "cold"
      ∧ Rp_from_Mdot_Mp_Popsynthfit 1 2 = Rp_from_Mdot_Mp_Popsynthfit 1 2 "warm" :=
  Popsynthfit_silent_cold 1 2 "hot" (by norm_num) (by decide)

/-- C9: for `Mdot > 0` and `Pop` in {warm, cold}, the legacy
`Rp_from_Mdot_Mp_Popsynthfit` and the core `Rp_from_Mdot_Mp` return exactly the
same radius: the two transcribed coefficient sets are identical. -/
theorem Popsynthfit_agrees_with_core (Mdot Mp : ℝ) (Pop : String)
    (hM : 0 < Mdot) (hpop : Pop = "warm" ∨ Pop = "cold") :
    Rp_from_Mdot_Mp Mdot Mp Pop = Except.ok (Rp_from_Mdot_Mp_Popsynthfit Mdot Mp Pop) := by
  rcases hpop with h | h <;> subst h <;> rfl

/-- Witness for C9 at the warm population. -/
theorem Popsynthfit_agrees_with_core_witness :
    Rp_from_Mdot_Mp 1 2 "warm" = Except.ok (Rp_from_Mdot_Mp_Popsynthfit 1 2 "warm") :=
  Popsynthfit_agrees_with_core 1 2 "warm" (by norm_num) (Or.inl rfl)

/-- C4: for `Mdot, Mp, ffill > 0` and `Pop` in {warm, cold}, the preshock
density equals `Mdot_g_s / (4*pi*Rp_cm^2*ffill*|v|*m_H/X_H)` with
`X_H = 0.738`, `m_H = 1.673e-24`, `Rp_cm = Rp*7.15e9` for the fitted radius
`Rp`, and `v` the free-fall velocity `v0simple` at that radius. -/
theorem n_MdotMp_eq_mass_flux (Mdot Mp ffill : ℝ) (Pop : String)
    (hpop : Pop = "warm" ∨ Pop = "cold")
    (hM : 0 < Mdot) (hMp : 0 < Mp) (hf : 0 < ffill) :
    ∃ r, Rp_from_Mdot_Mp Mdot Mp Pop = Except.ok r
      ∧ n_MdotMp Mdot Mp Pop ffill
          = Except.ok (Mdot*1.893e20/(4*Real.pi*(r*7.15e9)^(2:ℝ)*ffill
              * |v0simple Mp r| * 1.673e-24/0.738)) := by
  have habs : ∀ r : ℝ, |v0simple Mp r| = -(v0simple Mp r) := by
    intro r
    apply abs_of_nonpos
    have h := Real.sqrt_nonneg (2*6.67e-8*Mp*1.898e30/(r*7.15e9))
    unfold v0simple
    nlinarith
  rcases hpop with h | h <;> subst h
  · refine ⟨Rp_warm_expr (Real.logb 10 (Mdot/1e-2)) Mp, rfl, ?_⟩
    rw [habs]
    rfl
  · refine ⟨Rp_cold_expr (Real.logb 10 (Mdot/1e-2)) Mp, rfl, ?_⟩
    rw [habs]
    rfl

/-- Witness for C4 at `Mdot = 1e-3`, `Mp = 2`, `ffill = 1/2`, warm population. -/
theorem n_MdotMp_eq_mass_flux_witness :
    ∃ r, Rp_from_Mdot_Mp 1e-3 2 "warm" = Except.ok r
      ∧ n_MdotMp 1e-3 2 "warm" (1/2)
          = Except.ok (1e-3*1.893e20/(4*Real.pi*(r*7.15e9)^(2:ℝ)*(1/2)
              * |v0simple 2 r| * 1.673e-24/0.738)) :=
  n_MdotMp_eq_mass_flux 1e-3 2 (1/2) "warm" (Or.inl rfl)
    (by norm_num) (by norm_num) (by norm_num)

/-- For a valid population, `Teff_from_Mdot_Mp` succeeds and its value has the
shape `(Tint^4 + fdown * (X^0.25)^4)^0.25`, uniformly in `Tint`. -/
theorem Teff_reduce (Mdot Mp ffill : ℝ) (Pop : String)
    (hpop : Pop = "warm" ∨ Pop = "cold") :
    ∃ lgn0 v0 X, ∀ Tint, Teff_from_Mdot_Mp Mdot Mp Tint Pop ffill
        = Except.ok ((Tint^(4:ℝ)
            + fdown_Popsynthfit lgn0 v0 * (X^(0.25:ℝ))^(4:ℝ))^(0.25:ℝ)) := by
  rcases hpop with h | h <;> subst h
  · exact ⟨_, _, _, fun Tint => rfl⟩
  · exact ⟨_, _, _, fun Tint => rfl⟩

/-- C6: for every `Pop` outside {warm, cold}, `Teff_from_Mdot_Mp` fails with
the InvalidArgument message propagated from `Rp_from_Mdot_Mp`, and returns no
numeric value. -/
theorem Teff_invalid_pop_error (Mdot Mp Tint ffill : ℝ) (Pop : String)
    (h1 : Pop ≠ "warm") (h2 : Pop ≠ "cold") :
    Teff_from_Mdot_Mp Mdot Mp Tint Pop ffill
        = Except.error ("Pop should be \"warm\" or \"cold\" but given \"" ++ Pop ++ "\"")
      ∧ ∀ y : ℝ, Teff_from_Mdot_Mp Mdot Mp Tint Pop ffill ≠ Except.ok y := by
  have hR := Rp_from_Mdot_Mp_invalid Mdot Mp Pop h1 h2
  have he : Teff_from_Mdot_Mp Mdot Mp Tint Pop ffill
      = Except.error ("Pop should be \"warm\" or \"cold\" but given \"" ++ Pop ++ "\"") := by
    simp only [Teff_from_Mdot_Mp, n_MdotMp, v_MdotMp, Tacc_MdotMp, hR, Except.bind]
  refine ⟨he, fun y hy => ?_⟩
  rw [he] at hy
  exact Except.noConfusion hy

/-- Witness for C6 at `Pop = "hot"`. -/
theorem Teff_invalid_pop_error_witness :
    Teff_from_Mdot_Mp 1 1 1000 "hot" 1.0
        = Except.error ("Pop should be \"warm\" or \"cold\" but given \"" ++ "hot" ++ "\"")
      ∧ ∀ y : ℝ, Teff_from_Mdot_Mp 1 1 1000 "hot" 1.0 ≠ Except.ok y :=
  Teff_invalid_pop_error 1 1 1000 1.0 "hot" (by decide) (by decide)

/-- C10: for `Tint ≥ 0`, `Mdot, Mp, ffill > 0` and a valid population, the
effective temperature is at least `Tint`: the clamped `fdown` and the fourth
power of `Tacc` are both nonnegative. -/
theorem Teff_ge_Tint (Mdot Mp Tint ffill : ℝ) (Pop : String)
    (hpop : Pop = "warm" ∨ Pop = "cold") (hTint : 0 ≤ Tint)
    (hM : 0 < Mdot) (hMp : 0 < Mp) (hf : 0 < ffill) :
    ∃ t, Teff_from_Mdot_Mp Mdot Mp Tint Pop ffill = Except.ok t ∧ Tint ≤ t := by
  obtain ⟨lgn0, v0, X, hT⟩ := Teff_reduce Mdot Mp ffill Pop hpop
  refine ⟨_, hT Tint, ?_⟩
  have hA : 0 ≤ fdown_Popsynthfit lgn0 v0 * (X^(0.25:ℝ))^(4:ℝ) :=
    mul_nonneg (fdown_Popsynthfit_nonneg _ _)
      (Real.rpow_nonneg (rpow_quarter_nonneg X) _)
  have hTq : (Tint^(4:ℝ))^(0.25:ℝ) = Tint := by
    rw [← Real.rpow_mul hTint]
    norm_num
  calc Tint = (Tint^(4:ℝ))^(0.25:ℝ) := hTq.symm
    _ ≤ (Tint^(4:ℝ)
          + fdown_Popsynthfit lgn0 v0 * (X^(0.25:ℝ))^(4:ℝ))^(0.25:ℝ) :=
      Real.rpow_le_rpow (Real.rpow_nonneg hTint _)
        (le_add_of_nonneg_right hA) (by norm_num)

/-- Witness for C10 at `Mdot = 1e-3`, `Mp = 2`, `Tint = 500`, warm, `ffill = 1`. -/
theorem Teff_ge_Tint_witness :
    ∃ t, Teff_from_Mdot_Mp 1e-3 2 500 "warm" 1 = Except.ok t ∧ (500:ℝ) ≤ t :=
  Teff_ge_Tint 1e-3 2 500 1 "warm" (Or.inl rfl) (by norm_num)
    (by norm_num) (by norm_num) (by norm_num)

/-- C5 (amended): for `0 ≤ Tint1 < Tint2`, fixed `Mdot, Mp`, a valid
population and `ffill = 1.0`, the effective temperature is strictly larger at
`Tint2` than at `Tint1`. -/
theorem Teff_strict_mono_in_Tint (Mdot Mp Tint1 Tint2 : ℝ) (Pop : String)
    (hpop : Pop = "warm" ∨ Pop = "cold") (h0 : 0 ≤ Tint1) (h12 : Tint1 < Tint2) :
    ∃ t1 t2, Teff_from_Mdot_Mp Mdot Mp Tint1 Pop 1.0 = Except.ok t1
      ∧ Teff_from_Mdot_Mp Mdot Mp Tint2 Pop 1.0 = Except.ok t2 ∧ t1 < t2 := by
  obtain ⟨lgn0, v0, X, hT⟩ := Teff_reduce Mdot Mp 1.0 Pop hpop
  refine ⟨_, _, hT Tint1, hT Tint2, ?_⟩
  have hA : 0 ≤ fdown_Popsynthfit lgn0 v0 * (X^(0.25:ℝ))^(4:ℝ) :=
    mul_nonneg (fdown_Popsynthfit_nonneg _ _)
      (Real.rpow_nonneg (rpow_quarter_nonneg X) _)
  have h4 : Tint1^(4:ℝ) < Tint2^(4:ℝ) := Real.rpow_lt_rpow h0 h12 (by norm_num)
  exact Real.rpow_lt_rpow
    (add_nonneg (Real.rpow_nonneg h0 _) hA) (by linarith) (by norm_num)

/-- Witness for the amended C5 at `Tint1 = 0 < Tint2 = 100`. -/
theorem Teff_strict_mono_in_Tint_witness :
    ∃ t1 t2, Teff_from_Mdot_Mp 1e-3 2 0 "warm" 1.0 = Except.ok t1
      ∧ Teff_from_Mdot_Mp 1e-3 2 100 "warm" 1.0 = Except.ok t2 ∧ t1 < t2 :=
  Teff_strict_mono_in_Tint 1e-3 2 0 100 "warm" (Or.inl rfl) le_rfl (by norm_num)

/-- Counterexample to C5 as stated: at `Tint1 = -1 < Tint2 = 0` (other
arguments fixed and valid) the effective temperature strictly decreases,
because `Tint**4.` maps `-1` to `1`. -/
theorem Teff_not_strict_mono_in_Tint :
    ∃ t1 t2, Teff_from_Mdot_Mp 1e-2 1.0 (-1) "warm" 1.0 = Except.ok t1
      ∧ Teff_from_Mdot_Mp 1e-2 1.0 0 "warm" 1.0 = Except.ok t2 ∧ t2 < t1 := by
  obtain ⟨lgn0, v0, X, hT⟩ := Teff_reduce 1e-2 1.0 1.0 "warm" (Or.inl rfl)
  refine ⟨_, _, hT (-1), hT 0, ?_⟩
  have hA : 0 ≤ fdown_Popsynthfit lgn0 v0 * (X^(0.25:ℝ))^(4:ℝ) :=
    mul_nonneg (fdown_Popsynthfit_nonneg _ _)
      (Real.rpow_nonneg (rpow_quarter_nonneg X) _)
  have hm1 : ((-1:ℝ))^(4:ℝ) = 1 := by
    rw [show (4:ℝ) = ((4:ℕ):ℝ) by norm_num, Real.rpow_natCast]
    norm_num
  have hz : ((0:ℝ))^(4:ℝ) = 0 := Real.zero_rpow (by norm_num)
  rw [hm1, hz, zero_add]
  exact Real.rpow_lt_rpow hA (by linarith) (by norm_num)

end StMoritz
